import Mathlib

/-!
Formal model of the csgo-log repository (package `csgolog`, file
`csgolog.go`): a parser turning CS:GO server log lines into typed
messages.  Strings are modelled as lists of character codes, Go's
`regexp` engine as a fueled leftmost-first backtracking matcher over a
regex syntax tree compiled from the very pattern strings that appear in
the Go source, `time.Parse` for the fixed layout `01/02/2006 - 15:04:05`
as an explicit field-by-field reader with Go's range checks, and the
message catalog and `Parse` as executable functions.
-/

set_option maxRecDepth 8000

namespace Csgolog

/-- Strings are modelled as lists of Unicode code points. -/
abbrev Str := List Nat

/-- Convert a Lean string literal to its list of code points. -/
def codes (s : String) : Str := s.data.map (fun c => c.toNat)

/-! ## Character classes

Go's `\w` is `[0-9A-Za-z_]`, `\d` is `[0-9]`; a bracket class in the
patterns of this repository is a plain union of literal characters and
those two escapes (no ranges, no negation). -/

/-- Membership in Go's `\w` class. -/
def isWordCode (c : Nat) : Bool :=
  (97 ≤ c && c ≤ 122) || (65 ≤ c && c ≤ 90) || (48 ≤ c && c ≤ 57) || c == 95

/-- Membership in Go's `\d` class. -/
def isDigitCode (c : Nat) : Bool :=
  48 ≤ c && c ≤ 57

/-- One item of a bracket character class: a literal character, or one
of the class escapes `\w`, `\d`. -/
inductive CItem where
  | ch (c : Nat)
  | word
  | digit
deriving DecidableEq, Repr

/-- A code is in a bracket class when some item covers it. -/
def clsMem (items : List CItem) (c : Nat) : Bool :=
  items.any fun it =>
    match it with
    | .ch d => c == d
    | .word => isWordCode c
    | .digit => isDigitCode c

/-! ## Regex syntax trees -/

/-- Abstract syntax of the regular-expression subset used by the
patterns in `csgolog.go`: literals, `\w`/`\d` and bracket classes, `.`,
concatenation, alternation, greedy `*`/`?`, and numbered capturing
groups.  `+` and `{n}` are expanded at compile time. -/
inductive Re where
  | eps
  | ch (c : Nat)
  | cls (items : List CItem)
  | dot
  | seq (a b : Re)
  | alt (a b : Re)
  | star (a : Re)
  | opt (a : Re)
  | group (idx : Nat) (a : Re)
deriving DecidableEq, Repr

/-- Result of a fueled matching computation: a definitive first match,
a definitive failure, or fuel exhaustion (out of model). -/
inductive MRes (α : Type) where
  | ok (a : α)
  | miss
  | fuelOut
deriving DecidableEq, Repr

/-- Backtracking alternative: keep a definitive `ok`, fall through on a
definitive `miss`, and propagate fuel exhaustion so that it is never
mistaken for a definitive answer. -/
def MRes.orGo {α : Type} : MRes α → (Unit → MRes α) → MRes α
  | .ok a, _ => .ok a
  | .miss, f => f ()
  | .fuelOut, _ => .fuelOut

/-- Capture store: group index to captured text, latest write wins. -/
abbrev Caps := List (Nat × Str)

/-- Write a capture, replacing any previous value of the same group. -/
def capsSet (caps : Caps) (i : Nat) (v : Str) : Caps :=
  match caps with
  | [] => [(i, v)]
  | (j, w) :: t => if j == i then (i, v) :: t else (j, w) :: capsSet t i v

/-- Read a capture; a group that never matched reads as the empty
string, exactly as Go's `FindStringSubmatch` reports it. -/
def capGet (caps : Caps) (i : Nat) : Str :=
  match caps with
  | [] => []
  | (j, w) :: t => if j == i then w else capGet t i

/-- Machine instruction: a regex to match, a progress check guarding a
star iteration, or the closing of a capture group opened when the
remaining input was `s0`. -/
inductive RI where
  | re (r : Re)
  | prog (n : Nat)
  | close (idx : Nat) (s0 : Str)

/-- Leftmost-first backtracking matcher, one instruction stack, greedy
quantifiers, structural recursion on fuel.  Matches Go's (Perl-like)
submatch semantics for the pattern subset in use: alternatives are
tried left to right, `*` and `?` prefer the longer/present branch, and
a star iteration must consume input to continue. -/
def reRun : Nat → List RI → Str → Caps → MRes (Str × Caps)
  | 0, _, _, _ => .fuelOut
  | _ + 1, [], s, caps => .ok (s, caps)
  | fuel + 1, i :: k, s, caps =>
    match i with
    | .re .eps => reRun fuel k s caps
    | .re (.ch c) =>
      match s with
      | [] => .miss
      | c' :: s' => if c' == c then reRun fuel k s' caps else .miss
    | .re (.cls items) =>
      match s with
      | [] => .miss
      | c' :: s' => if clsMem items c' then reRun fuel k s' caps else .miss
    | .re .dot =>
      match s with
      | [] => .miss
      | c' :: s' => if c' == 10 then .miss else reRun fuel k s' caps
    | .re (.seq a b) => reRun fuel (.re a :: .re b :: k) s caps
    | .re (.alt a b) =>
      (reRun fuel (.re a :: k) s caps).orGo fun _ => reRun fuel (.re b :: k) s caps
    | .re (.star a) =>
      (reRun fuel (.re a :: .prog s.length :: .re (.star a) :: k) s caps).orGo
        fun _ => reRun fuel k s caps
    | .re (.opt a) =>
      (reRun fuel (.re a :: k) s caps).orGo fun _ => reRun fuel k s caps
    | .re (.group i a) => reRun fuel (.re a :: .close i s :: k) s caps
    | .prog n => if s.length < n then reRun fuel k s caps else .miss
    | .close i s0 => reRun fuel k s (capsSet caps i (s0.take (s0.length - s.length)))

/-- Try the regex at one position; on success return the matched text
and the capture store. -/
def reHere (fuel : Nat) (r : Re) (s : Str) : MRes (Str × Caps) :=
  match reRun fuel [.re r] s [] with
  | .ok (s', caps) => .ok (s.take (s.length - s'.length), caps)
  | .fuelOut => .fuelOut
  | .miss => .miss

/-- Try the regex at the current position, then at each later position,
mirroring the leftmost search of Go's `FindStringSubmatch`. -/
def reFindAux (fuel : Nat) (r : Re) : Str → MRes (Str × Caps)
  | [] => reHere fuel r []
  | c :: t => (reHere fuel r (c :: t)).orGo fun _ => reFindAux fuel r t

/-- Evaluation fuel used by all searches: generous quadratic budget in
the input length, far above the number of machine steps any of the 33
catalog patterns performs on a log line. -/
def runFuel (s : Str) : Nat := 100000 + 400 * (s.length + 1) * (s.length + 1)

/-- Submatch slice in Go's shape: index 0 is the whole match, index `i`
is capture group `i`, an unmatched group reads as the empty string. -/
def subsOf (nGroups : Nat) (whole : Str) (caps : Caps) : List Str :=
  whole :: (List.range nGroups).map (fun i => capGet caps (i + 1))

/-! ## Compiling pattern strings

The catalog patterns are kept verbatim (as the same string constants as
in `csgolog.go`) and compiled to `Re` trees by a small recursive-descent
reader for the regex subset they use. -/

/-- Read the items of a bracket class after `[`, up to the closing
`]`.  Inside a class, `\w` and `\d` are the class escapes, any other
escaped character and any plain character stands for itself. -/
def readCls : Str → Option (List CItem × Str)
  | [] => none
  | 93 :: rest => some ([], rest)
  | 92 :: esc :: rest =>
    match readCls rest with
    | some (items, r') =>
      if esc == 119 then some (.word :: items, r')
      else if esc == 100 then some (.digit :: items, r')
      else some (.ch esc :: items, r')
    | none => none
  | 92 :: [] => none
  | c :: rest =>
    match readCls rest with
    | some (items, r') => some (.ch c :: items, r')
    | none => none

/-- Read the decimal repetition count between `{` and `}`. -/
def readRep : Str → Nat → Option (Nat × Str)
  | [], _ => none
  | 125 :: rest, acc => some (acc, rest)
  | c :: rest, acc =>
    if isDigitCode c then readRep rest (acc * 10 + (c - 48)) else none

/-- Expand a counted repetition `a{n}` into `n` concatenated copies. -/
def repExact : Nat → Re → Re
  | 0, _ => .eps
  | 1, a => a
  | n + 1, a => .seq a (repExact n a)

/-- Recursive-descent reader for the pattern subset, structurally
recursive on fuel.  `mode = 0` reads an alternation, `mode = 1` a
concatenation of postfixed atoms; `g` is the next capture-group number
(groups are numbered by opening parenthesis, left to right, as in Go).
Returns the tree, the next group number and the unread rest. -/
def readRe : Nat → Nat → Nat → Str → Option (Re × Nat × Str)
  | 0, _, _, _ => none
  | fuel + 1, 0, g, s =>
    match readRe fuel 1 g s with
    | some (a, g', rest) =>
      match rest with
      | 124 :: rest' =>
        match readRe fuel 0 g' rest' with
        | some (b, g'', rest'') => some (.alt a b, g'', rest'')
        | none => none
      | _ => some (a, g', rest)
    | none => none
  | fuel + 1, _, g, s =>
    match s with
    | [] => some (.eps, g, [])
    | 41 :: _ => some (.eps, g, s)
    | 124 :: _ => some (.eps, g, s)
    | c :: rest =>
      let atom? : Option (Re × Nat × Str) :=
        if c == 40 then
          match readRe fuel 0 (g + 1) rest with
          | some (a, g', 41 :: rest') => some (.group g a, g', rest')
          | _ => none
        else if c == 91 then
          match readCls rest with
          | some (items, rest') => some (.cls items, g, rest')
          | none => none
        else if c == 92 then
          match rest with
          | [] => none
          | esc :: rest' =>
            if esc == 119 then some (.cls [.word], g, rest')
            else if esc == 100 then some (.cls [.digit], g, rest')
            else some (.ch esc, g, rest')
        else if c == 46 then some (.dot, g, rest)
        else some (.ch c, g, rest)
      match atom? with
      | none => none
      | some (a, g', rest') =>
        let post : Re × Str :=
          match rest' with
          | 42 :: r2 => (.star a, r2)
          | 43 :: r2 => (.seq a (.star a), r2)
          | 63 :: r2 => (.opt a, r2)
          | 123 :: r2 =>
            match readRep r2 0 with
            | some (n, r3) => (repExact n a, r3)
            | none => (a, rest')
          | _ => (a, rest')
        match readRe fuel 1 g' post.2 with
        | some (b, g'', rest'') => some (.seq post.1 b, g'', rest'')
        | none => none

/-- Compile a pattern string: read it fully, returning the tree and the
number of capture groups.  All patterns of the catalog compile; Go's
`regexp.MustCompile` would panic otherwise. -/
def compileRe (p : Str) : Option (Re × Nat) :=
  match readRe (4 * p.length + 8) 0 1 p with
  | some (r, g, []) => some (r, g - 1)
  | _ => none

/-- Full model of `FindStringSubmatch` for a compiled pattern: `ok`
with the Go-shaped submatch slice on a match, `miss` when the engine
definitively finds none. -/
def findSub (p : Str) (s : Str) : MRes (List Str) :=
  match compileRe p with
  | none => .miss
  | some (r, n) =>
    match reFindAux (runFuel s) r s with
    | .ok (whole, caps) => .ok (subsOf n whole caps)
    | .miss => .miss
    | .fuelOut => .fuelOut

/-! ## The pattern constants of `csgolog.go`

Each constant below is the same pattern string as the Go source (Go
raw-string backquotes become Lean escaping). -/

/-- ServerMessagePattern regular expression. -/
def ServerMessagePattern : Str := codes ("server_message: \"(\\w+)\"")

/-- FreezTimeStartPattern regular expression. -/
def FreezTimeStartPattern : Str := codes ("Starting Freeze period")

/-- WorldMatchStartPattern regular expression. -/
def WorldMatchStartPattern : Str := codes ("World triggered \"Match_Start\" on \"(\\w+)\"")

/-- WorldRoundStartPattern regular expression. -/
def WorldRoundStartPattern : Str := codes ("World triggered \"Round_Start\"")

/-- WorldRoundRestartPattern regular expression. -/
def WorldRoundRestartPattern : Str :=
  codes ("World triggered \"Restart_Round_\\((\\d+)_second\\)")

/-- WorldRoundEndPattern regular expression. -/
def WorldRoundEndPattern : Str := codes ("World triggered \"Round_End\"")

/-- WorldGameCommencingPattern regular expression. -/
def WorldGameCommencingPattern : Str := codes ("World triggered \"Game_Commencing\"")

/-- TeamScoredPattern regular expression. -/
def TeamScoredPattern : Str :=
  codes ("Team \"(CT|TERRORIST)\" scored \"(\\d+)\" with \"(\\d+)\" players")

/-- TeamNoticePattern regular expression. -/
def TeamNoticePattern : Str :=
  codes ("Team \"(CT|TERRORIST)\" triggered \"(\\w+)\" \\(CT \"(\\d+)\"\\) \\(T \"(\\d+)\"\\)")

/-- PlayerConnectedPattern regular expression. -/
def PlayerConnectedPattern : Str :=
  codes ("\"(\\w+)<(\\d+)><([\\w:]+)><>\" connected, address \"(.*)\"")

/-- PlayerDisconnectedPattern regular expression. -/
def PlayerDisconnectedPattern : Str :=
  codes ("\"(\\w+)<(\\d+)><([\\w:]+)><(TERRORIST|CT|Unassigned|)>\" disconnected \\(reason \"(.+)\"\\)")

/-- PlayerEnteredPattern regular expression. -/
def PlayerEnteredPattern : Str :=
  codes ("\"(\\w+)<(\\d+)><([\\w:]+)><>\" entered the game")

/-- PlayerBannedPattern regular expression. -/
def PlayerBannedPattern : Str :=
  codes ("Banid: \"(\\w+)<(\\d+)><([\\w:]+)><\\w*>\" was banned \"([\\w. ]+)\" by \"(\\w+)\"")

/-- PlayerSwitchedPattern regular expression. -/
def PlayerSwitchedPattern : Str :=
  codes ("\"(\\w+)<(\\d+)><([\\w:]+)>\" switched from team <(Unassigned|TERRORIST|CT)> to <(Unassigned|TERRORIST|CT)>")

/-- PlayerSayPattern regular expression. -/
def PlayerSayPattern : Str :=
  codes ("\"(\\w+)<(\\d+)><([\\w:]+)><(TERRORIST|CT)>\" say(_team)? \"(.*)\"")

/-- PlayerPurchasePattern regular expression. -/
def PlayerPurchasePattern : Str :=
  codes ("\"(\\w+)<(\\d+)><([\\w:]+)><(TERRORIST|CT)>\" purchased \"(\\w+)\"")

/-- PlayerKillPattern regular expression. -/
def PlayerKillPattern : Str :=
  codes ("\"(\\w+)<(\\d+)><([\\w:]+)><(TERRORIST|CT)>\" \\[(-?\\d+) (-?\\d+) (-?\\d+)\\] killed \"(\\w+)<(\\d+)><([\\w:]+)><(TERRORIST|CT)>\" \\[(-?\\d+) (-?\\d+) (-?\\d+)\\] with \"(\\w+)\" ?(\\(?(headshot|penetrated|headshot penetrated)?\\))?")

/-- PlayerKillAssistPattern regular expression. -/
def PlayerKillAssistPattern : Str :=
  codes ("\"(\\w+)<(\\d+)><([\\w:]+)><(TERRORIST|CT)>\" assisted killing \"(\\w+)<(\\d+)><([\\w:]+)><(TERRORIST|CT)>\"")

/-- PlayerAttackPattern regular expression. -/
def PlayerAttackPattern : Str :=
  codes ("\"(\\w+)<(\\d+)><([\\w:]+)><(TERRORIST|CT)>\" \\[(-?\\d+) (-?\\d+) (-?\\d+)\\] attacked \"(\\w+)<(\\d+)><([\\w:]+)><(TERRORIST|CT)>\" \\[(-?\\d+) (-?\\d+) (-?\\d+)\\] with \"(\\w+)\" \\(damage \"(\\d+)\"\\) \\(damage_armor \"(\\d+)\"\\) \\(health \"(\\d+)\"\\) \\(armor \"(\\d+)\"\\) \\(hitgroup \"([\\w ]+)\"\\)")

/-- PlayerKilledBombPattern regular expression. -/
def PlayerKilledBombPattern : Str :=
  codes ("\"(\\w+)<(\\d+)><([\\w:]+)><(TERRORIST|CT)>\" \\[(-?\\d+) (-?\\d+) (-?\\d+)\\] was killed by the bomb\\.")

/-- PlayerKilledSuicidePattern regular expression. -/
def PlayerKilledSuicidePattern : Str :=
  codes ("\"(\\w+)<(\\d+)><([\\w:]+)><(TERRORIST|CT)>\" \\[(-?\\d+) (-?\\d+) (-?\\d+)\\] committed suicide with \"(.*)\"")

/-- PlayerPickedUpPattern regular expression. -/
def PlayerPickedUpPattern : Str :=
  codes ("\"(\\w+)<(\\d+)><([\\w:]+)><(TERRORIST|CT)>\" picked up \"(\\w+)\"")

/-- PlayerDroppedPattern regular expression. -/
def PlayerDroppedPattern : Str :=
  codes ("\"(\\w+)<(\\d+)><([\\w:]+)><(TERRORIST|CT|Unassigned)>\" dropped \"(\\w+)\"")

/-- PlayerMoneyChangePattern regular expression. -/
def PlayerMoneyChangePattern : Str :=
  codes ("\"(\\w+)<(\\d+)><([\\w:]+)><(TERRORIST|CT)>\" money change (\\d+)\\+?(-?\\d+) = \\$(\\d+) \\(tracked\\)( \\(purchase: (\\w+)\\))?")

/-- PlayerBombGotPattern regular expression. -/
def PlayerBombGotPattern : Str :=
  codes ("\"(\\w+)<(\\d+)><([\\w:]+)><(TERRORIST|CT)>\" triggered \"Got_The_Bomb\"")

/-- PlayerBombPlantedPattern regular expression. -/
def PlayerBombPlantedPattern : Str :=
  codes ("\"(\\w+)<(\\d+)><([\\w:]+)><(TERRORIST|CT)>\" triggered \"Planted_The_Bomb\"")

/-- PlayerBombDroppedPattern regular expression. -/
def PlayerBombDroppedPattern : Str :=
  codes ("\"(\\w+)<(\\d+)><([\\w:]+)><(TERRORIST|CT)>\" triggered \"Dropped_The_Bomb\"")

/-- PlayerBombBeginDefusePattern regular expression. -/
def PlayerBombBeginDefusePattern : Str :=
  codes ("\"(\\w+)<(\\d+)><([\\w:]+)><(TERRORIST|CT)>\" triggered \"Begin_Bomb_Defuse_With(out)?_Kit\"")

/-- PlayerBombDefusedPattern regular expression. -/
def PlayerBombDefusedPattern : Str :=
  codes ("\"(\\w+)<(\\d+)><([\\w:]+)><(TERRORIST|CT)>\" triggered \"Defused_The_Bomb\"")

/-- PlayerThrewPattern regular expression. -/
def PlayerThrewPattern : Str :=
  codes ("\"(\\w+)<(\\d+)><([\\w:]+)><(TERRORIST|CT)>\" threw (\\w+) \\[(-?\\d+) (-?\\d+) (-?\\d+)\\]( flashbang entindex (\\d+))?\\)?")

/-- PlayerBlindedPattern regular expression. -/
def PlayerBlindedPattern : Str :=
  codes ("\"(\\w+)<(\\d+)><([\\w:]+)><(TERRORIST|CT)>\" blinded for ([\\d.]+) by \"(\\w+)<(\\d+)><([\\w:]+)><(TERRORIST|CT)>\" from flashbang entindex (\\d+)")

/-- ProjectileSpawnedPattern regular expression. -/
def ProjectileSpawnedPattern : Str :=
  codes ("Molotov projectile spawned at (-?\\d+\\.\\d+) (-?\\d+\\.\\d+) (-?\\d+\\.\\d+), velocity (-?\\d+\\.\\d+) (-?\\d+\\.\\d+) (-?\\d+\\.\\d+)")

/-- GameOverPattern regular expression. -/
def GameOverPattern : Str :=
  codes ("Game Over: (\\w+) (\\w+) (\\w+) score (\\d+):(\\d+) after (\\d+) min")

/-- Top-level log-line pattern, inlined in Go's `Parse`: literal `L `,
a date `MM/DD/YYYY`, ` - `, a time `HH:MM:SS`, `: `, then the message
body. -/
def logLinePattern : Str :=
  codes ("L (\\d{2}\\/\\d{2}\\/\\d{4} - \\d{2}:\\d{2}:\\d{2}): (.*)")

/-! ## Go `time.Parse` for the layout `01/02/2006 - 15:04:05`

Field-by-field reader with Go's checks: hour/minute/second ranges are
rejected inline while scanning, the month range and then the day range
(against the month's length, leap years included) are checked after the
scan, and any malformed digit, wrong literal or trailing text is a
format error.  A successful parse yields a UTC time, as Go's
`time.Parse` does for a layout with no zone. -/

/-- A Go `time.Time` restricted to what this layout produces: a
calendar date, a clock time, and the location (always UTC here). -/
structure DateTime where
  year : Nat
  month : Nat
  day : Nat
  hour : Nat
  minute : Nat
  second : Nat
  loc : Str
deriving DecidableEq, Repr

/-- Model of Go's `*time.ParseError`: either malformed text (bad
digits, wrong literal, trailing text) or a named out-of-range field. -/
inductive TimeError where
  | badData (rest : Str)
  | outOfRange (what : Str)
deriving DecidableEq, Repr

/-- Decidable equality for `Except`, used to evaluate `parseGoTime`
results in concrete witnesses. -/
instance {ε α : Type} [DecidableEq ε] [DecidableEq α] : DecidableEq (Except ε α)
  | .ok a, .ok b =>
    if h : a = b then .isTrue (by rw [h]) else .isFalse (by simp [h])
  | .ok _, .error _ => .isFalse (by simp)
  | .error _, .ok _ => .isFalse (by simp)
  | .error e, .error f =>
    if h : e = f then .isTrue (by rw [h]) else .isFalse (by simp [h])

/-- Read exactly two decimal digits. -/
def read2 : Str → Option (Nat × Str)
  | a :: b :: rest =>
    if isDigitCode a && isDigitCode b then some ((a - 48) * 10 + (b - 48), rest)
    else none
  | _ => none

/-- Read exactly four decimal digits. -/
def read4 : Str → Option (Nat × Str)
  | a :: b :: c :: d :: rest =>
    if isDigitCode a && isDigitCode b && isDigitCode c && isDigitCode d then
      some (((a - 48) * 10 + (b - 48)) * 100 + (c - 48) * 10 + (d - 48), rest)
    else none
  | _ => none

/-- Consume one expected literal character. -/
def litC (c : Nat) : Str → Option Str
  | c' :: rest => if c' == c then some rest else none
  | [] => none

/-- Go's leap-year rule. -/
def isLeap (y : Nat) : Bool :=
  y % 4 == 0 && (y % 100 != 0 || y % 400 == 0)

/-- Days in a month, as Go's `daysIn`. -/
def daysIn (m y : Nat) : Nat :=
  if m == 2 then (if isLeap y then 29 else 28)
  else if m == 4 || m == 6 || m == 9 || m == 11 then 30
  else 31

/-- Go `time.Parse` for the fixed layout `01/02/2006 - 15:04:05`. -/
def parseGoTime (v : Str) : Except TimeError DateTime :=
  match read2 v with
  | none => .error (.badData v)
  | some (mo, r1) =>
    match litC 47 r1 with
    | none => .error (.badData r1)
    | some r2 =>
      match read2 r2 with
      | none => .error (.badData r2)
      | some (d, r3) =>
        match litC 47 r3 with
        | none => .error (.badData r3)
        | some r4 =>
          match read4 r4 with
          | none => .error (.badData r4)
          | some (y, r5) =>
            match litC 32 r5 >>= litC 45 >>= litC 32 with
            | none => .error (.badData r5)
            | some r6 =>
              match read2 r6 with
              | none => .error (.badData r6)
              | some (h, r7) =>
                if 24 ≤ h then .error (.outOfRange (codes ("hour"))) else
                match litC 58 r7 with
                | none => .error (.badData r7)
                | some r8 =>
                  match read2 r8 with
                  | none => .error (.badData r8)
                  | some (mi, r9) =>
                    if 60 ≤ mi then .error (.outOfRange (codes ("minute"))) else
                    match litC 58 r9 with
                    | none => .error (.badData r9)
                    | some r10 =>
                      match read2 r10 with
                      | none => .error (.badData r10)
                      | some (sec, r11) =>
                        if 60 ≤ sec then .error (.outOfRange (codes ("second"))) else
                        if !r11.isEmpty then .error (.badData r11) else
                        if mo < 1 || 12 < mo then .error (.outOfRange (codes ("month"))) else
                        if d < 1 || daysIn mo y < d then .error (.outOfRange (codes ("day"))) else
                        .ok ⟨y, mo, d, h, mi, sec, codes ("UTC")⟩

/-! ## Coercion helpers (`toInt`, `toFloat32`) -/

/-- Value of a non-empty all-digit string, `none` otherwise. -/
def digitsVal : Str → Option Nat
  | [] => none
  | [c] => if isDigitCode c then some (c - 48) else none
  | c :: rest =>
    if isDigitCode c then
      match digitsVal rest with
      | some n => some ((c - 48) * 10 ^ rest.length + n)
      | none => none
    else none

/-- Signed base-10 reading as in `strconv.ParseInt(s, 10, _)`: an
optional single sign, then at least one digit, no other characters. -/
def atoiNum : Str → Option Int
  | 43 :: t => (digitsVal t).map fun n => (n : Int)
  | 45 :: t => (digitsVal t).map fun n => -(n : Int)
  | s => (digitsVal s).map fun n => (n : Int)

/-- The range check of `strconv.Atoi` on a 64-bit platform
(`bitSize 0` = the platform `int`): out-of-range values are an
`ErrRange` error. -/
def atoiOk (s : Str) : Option Int :=
  match atoiNum s with
  | some v => if -(2 ^ 63) ≤ v ∧ v ≤ 2 ^ 63 - 1 then some v else none
  | none => none

/-- Model of `toInt` in `csgolog.go`: `strconv.Atoi`, and `0` whenever
Atoi reports any error. -/
def toInt (s : Str) : Int :=
  match atoiOk s with
  | some v => v
  | none => 0

/-- A parsed `float32` value, kept as its syntactic decomposition
`(-1)^neg * mant * base^exp` (base 10 for decimal literals, base 2 for
hex ones); IEEE rounding to 32 bits and the overflow-to-`ErrRange` path
of `strconv.ParseFloat` are not modelled — no claim depends on a float
value, only on the zero fallback for unparsable text. -/
inductive F32 where
  | zero
  | num (neg : Bool) (mant : Nat) (exp : Int) (hex : Bool)
  | inf (neg : Bool)
  | nan
deriving DecidableEq, Repr

/-- Lower-case an ASCII letter code. -/
def lowerC (c : Nat) : Nat :=
  if 65 ≤ c && c ≤ 90 then c + 32 else c

/-- Lower-case a string of codes. -/
def lowerS (s : Str) : Str := s.map lowerC

/-- Hex letter a–f (after lowering). -/
def isHexLetter (c : Nat) : Bool :=
  97 ≤ lowerC c && lowerC c ≤ 102

/-- Value of a hex digit. -/
def hexVal (c : Nat) : Nat :=
  if isDigitCode c then c - 48 else lowerC c - 87

/-- Go `strconv`'s `special`: the strings `inf` / `infinity` with an
optional sign and `nan` without one, case-insensitively, when they make
up the whole input. -/
def specialF (s : Str) : Option F32 :=
  match s with
  | 43 :: t =>
    if lowerS t == codes ("inf") || lowerS t == codes ("infinity") then some (.inf false)
    else none
  | 45 :: t =>
    if lowerS t == codes ("inf") || lowerS t == codes ("infinity") then some (.inf true)
    else none
  | _ =>
    if lowerS s == codes ("nan") then some .nan
    else if lowerS s == codes ("inf") || lowerS s == codes ("infinity") then some (.inf false)
    else none

/-- State of the mantissa scan of `strconv`'s `readFloat`. -/
structure MantSt where
  mant : Nat
  frac : Nat
  sawdot : Bool
  sawdig : Bool
  usc : Bool
deriving DecidableEq, Repr

/-- Mantissa scan: digits (hex digits in a hex literal), one dot,
underscores recorded for the later `underscoreOK` check; stops at the
first other character or at a second dot. -/
def mantLoop (hex : Bool) : Str → MantSt → (MantSt × Str)
  | [], st => (st, [])
  | c :: rest, st =>
    if c == 95 then mantLoop hex rest { st with usc := true }
    else if c == 46 then
      if st.sawdot then (st, c :: rest)
      else mantLoop hex rest { st with sawdot := true }
    else if isDigitCode c then
      mantLoop hex rest
        { st with
          mant := st.mant * (if hex then 16 else 10) + (c - 48)
          sawdig := true
          frac := if st.sawdot then st.frac + 1 else st.frac }
    else if hex && isHexLetter c then
      mantLoop hex rest
        { st with
          mant := st.mant * 16 + hexVal c
          sawdig := true
          frac := if st.sawdot then st.frac + 1 else st.frac }
    else (st, c :: rest)

/-- Exponent digit scan (underscores recorded, as in Go). -/
def readExpNum : Str → Nat → Bool → (Nat × Bool × Str)
  | [], acc, usc => (acc, usc, [])
  | c :: rest, acc, usc =>
    if isDigitCode c then readExpNum rest (acc * 10 + (c - 48)) usc
    else if c == 95 then readExpNum rest acc true
    else (acc, usc, c :: rest)

/-- Inner loop of Go's `underscoreOK`; `saw` is the class of the last
character: 94 `^` start, 48 digit, 95 underscore, 33 other. -/
def uokLoop (hex : Bool) : Str → Nat → Bool
  | [], saw => saw != 95
  | c :: rest, saw =>
    if isDigitCode c || (hex && isHexLetter c) then uokLoop hex rest 48
    else if c == 95 then (if saw != 48 then false else uokLoop hex rest 95)
    else if saw == 95 then false
    else uokLoop hex rest 33

/-- Go's `underscoreOK`: underscores may only separate digits (the base
prefix counting as a digit). -/
def underscoreOK (s : Str) : Bool :=
  let s1 := match s with
    | c :: t => if c == 43 || c == 45 then t else s
    | [] => s
  match s1 with
  | z :: b :: t =>
    if z == 48 && (lowerC b == 98 || lowerC b == 111 || lowerC b == 120) then
      uokLoop (lowerC b == 120) t 48
    else uokLoop false s1 94
  | _ => uokLoop false s1 94

/-- Syntax (and decomposed value) of `strconv.ParseFloat`'s number
path: optional sign, optional `0x`, mantissa with at most one dot and
at least one digit, then a mandatory `p` exponent for hex or an
optional `e` exponent for decimal, all of the input consumed, and the
underscore-placement check when underscores occur. -/
def readFloatNum (s : Str) : Option F32 :=
  let signSplit : Bool × Str :=
    match s with
    | 43 :: t => (false, t)
    | 45 :: t => (true, t)
    | _ => (false, s)
  let neg := signSplit.1
  let hexSplit : Bool × Str :=
    match signSplit.2 with
    | z :: x :: t => if z == 48 && lowerC x == 120 then (true, t) else (false, signSplit.2)
    | _ => (false, signSplit.2)
  let hex := hexSplit.1
  let scan := mantLoop hex hexSplit.2 ⟨0, 0, false, false, false⟩
  let st := scan.1
  if !st.sawdig then none else
  let mkNum : Int → Bool → Option F32 := fun e usc2 =>
    let frac : Int := (st.frac : Int)
    let exp : Int := if hex then e - 4 * frac else e - frac
    if (st.usc || usc2) && !underscoreOK s then none
    else some (.num neg st.mant exp hex)
  match scan.2 with
  | [] => if hex then none else mkNum 0 false
  | c :: t =>
    if hex then
      if lowerC c == 112 then
        let esignSplit : Bool × Str :=
          match t with
          | 43 :: u => (false, u)
          | 45 :: u => (true, u)
          | _ => (false, t)
        match esignSplit.2 with
        | [] => none
        | d :: _ =>
          if !(isDigitCode d) then none else
          let ed := readExpNum esignSplit.2 0 false
          if !ed.2.2.isEmpty then none else
          mkNum (if esignSplit.1 then -(ed.1 : Int) else (ed.1 : Int)) ed.2.1
      else none
    else
      if lowerC c == 101 then
        let esignSplit : Bool × Str :=
          match t with
          | 43 :: u => (false, u)
          | 45 :: u => (true, u)
          | _ => (false, t)
        match esignSplit.2 with
        | [] => none
        | d :: _ =>
          if !(isDigitCode d) then none else
          let ed := readExpNum esignSplit.2 0 false
          if !ed.2.2.isEmpty then none else
          mkNum (if esignSplit.1 then -(ed.1 : Int) else (ed.1 : Int)) ed.2.1
      else none

/-- Full `strconv.ParseFloat(s, 32)` syntax: specials first, then the
number path. -/
def parseF32 (s : Str) : Option F32 :=
  match specialF s with
  | some f => some f
  | none => readFloatNum s

/-- Model of `toFloat32` in `csgolog.go`: `strconv.ParseFloat(v, 32)`,
and the `float32` zero whenever it reports an error. -/
def toFloat32 (s : Str) : F32 :=
  match parseF32 s with
  | some f => f
  | none => .zero

/-! ## The message data model of `csgolog.go` -/

/-- Player record. -/
structure Player where
  name : Str
  id : Int
  steamId : Str
  side : Str
deriving DecidableEq, Repr

/-- Integer map position. -/
structure Position where
  x : Int
  y : Int
  z : Int
deriving DecidableEq, Repr

/-- Float map position. -/
structure PositionFloat where
  x : F32
  y : F32
  z : F32
deriving DecidableEq, Repr

/-- Projectile velocity. -/
structure Velocity where
  x : F32
  y : F32
  z : F32
deriving DecidableEq, Repr

/-- Money-change equation `A + B = Result`. -/
structure Equation where
  a : Int
  b : Int
  result : Int
deriving DecidableEq, Repr

/-- Time and kind tag shared by all messages. -/
structure Meta where
  time : DateTime
  type : Str
deriving DecidableEq, Repr

/-- The closed sum of all message variants of `csgolog.go`, one
constructor per Go struct implementing `Message`, plus `unknown`.  The
Go field names `by`, `from`, `to` and `with` are Lean keywords and are
renamed (`byWhom`, `fromTeam`, `toTeam`, `withWhat`). -/
inductive Message where
  | serverMessage (meta : Meta) (text : Str)
  | freezTimeStart (meta : Meta)
  | worldMatchStart (meta : Meta) (map : Str)
  | worldRoundStart (meta : Meta)
  | worldRoundRestart (meta : Meta) (timeleft : Int)
  | worldRoundEnd (meta : Meta)
  | worldGameCommencing (meta : Meta)
  | teamScored (meta : Meta) (side : Str) (score numPlayers : Int)
  | teamNotice (meta : Meta) (side notice : Str) (scoreCT scoreT : Int)
  | playerConnected (meta : Meta) (player : Player) (address : Str)
  | playerDisconnected (meta : Meta) (player : Player) (reason : Str)
  | playerEntered (meta : Meta) (player : Player)
  | playerBanned (meta : Meta) (player : Player) (duration byWhom : Str)
  | playerSwitched (meta : Meta) (player : Player) (fromTeam toTeam : Str)
  | playerSay (meta : Meta) (player : Player) (text : Str) (team : Bool)
  | playerPurchase (meta : Meta) (player : Player) (item : Str)
  | playerKill (meta : Meta) (attacker : Player) (attackerPosition : Position)
      (victim : Player) (victimPosition : Position) (weapon : Str)
      (headshot penetrated : Bool)
  | playerKillAssist (meta : Meta) (attacker victim : Player)
  | playerAttack (meta : Meta) (attacker : Player) (attackerPosition : Position)
      (victim : Player) (victimPosition : Position) (weapon : Str)
      (damage damageArmor health armor : Int) (hitgroup : Str)
  | playerKilledBomb (meta : Meta) (player : Player) (position : Position)
  | playerKilledSuicide (meta : Meta) (player : Player) (position : Position)
      (withWhat : Str)
  | playerPickedUp (meta : Meta) (player : Player) (item : Str)
  | playerDropped (meta : Meta) (player : Player) (item : Str)
  | playerMoneyChange (meta : Meta) (player : Player) (equation : Equation)
      (purchase : Str)
  | playerBombGot (meta : Meta) (player : Player)
  | playerBombPlanted (meta : Meta) (player : Player)
  | playerBombDropped (meta : Meta) (player : Player)
  | playerBombBeginDefuse (meta : Meta) (player : Player) (kit : Bool)
  | playerBombDefused (meta : Meta) (player : Player)
  | playerThrew (meta : Meta) (player : Player) (position : Position)
      (entindex : Int) (grenade : Str)
  | playerBlinded (meta : Meta) (attacker victim : Player) (forDur : F32)
      (entindex : Int)
  | projectileSpawned (meta : Meta) (position : PositionFloat) (velocity : Velocity)
  | gameOver (meta : Meta) (mode mapGroup map : Str) (scoreCT scoreT duration : Int)
  | unknown (meta : Meta) (raw : Str)
deriving DecidableEq, Repr

/-- Kind tag of a message (Go's `GetType` through `Meta`). -/
def Message.getType : Message → Str
  | .serverMessage m _ | .freezTimeStart m | .worldMatchStart m _
  | .worldRoundStart m | .worldRoundRestart m _ | .worldRoundEnd m
  | .worldGameCommencing m | .teamScored m _ _ _ | .teamNotice m _ _ _ _
  | .playerConnected m _ _ | .playerDisconnected m _ _ | .playerEntered m _
  | .playerBanned m _ _ _ | .playerSwitched m _ _ _ | .playerSay m _ _ _
  | .playerPurchase m _ _ | .playerKill m _ _ _ _ _ _ _
  | .playerKillAssist m _ _ | .playerAttack m _ _ _ _ _ _ _ _ _ _
  | .playerKilledBomb m _ _ | .playerKilledSuicide m _ _ _
  | .playerPickedUp m _ _ | .playerDropped m _ _ | .playerMoneyChange m _ _ _
  | .playerBombGot m _ | .playerBombPlanted m _ | .playerBombDropped m _
  | .playerBombBeginDefuse m _ _ | .playerBombDefused m _
  | .playerThrew m _ _ _ _ | .playerBlinded m _ _ _ _
  | .projectileSpawned m _ _ | .gameOver m _ _ _ _ _ _ | .unknown m _ => m.type

/-! ## The builder functions

Each `newX` below mirrors the Go function of the same name: positional
indexing into the submatch slice `r` (index 0 is the whole match), with
`toInt`/`toFloat32` coercion on numeric captures.  Go indexing `r[i]`
is modelled by `r.getD i []`; for the slices the dispatcher produces the
index is always in bounds, where Go would otherwise panic. -/

/-- Shorthand for Go's `r[i]`. -/
def at_ (r : List Str) (i : Nat) : Str := r.getD i []

/-- Shorthand for Go's `strings.Contains`: contiguous substring test. -/
def containsSub (hay needle : Str) : Bool :=
  match hay with
  | [] => needle.isEmpty
  | _ :: t => needle.isPrefixOf hay || containsSub t needle

def newMeta (ti : DateTime) (ty : Str) : Meta := ⟨ti, ty⟩

def newServerMessage (ti : DateTime) (r : List Str) : Message :=
  .serverMessage (newMeta ti (codes ("ServerMessage"))) (at_ r 1)

def newFreezTimeStart (ti : DateTime) (_ : List Str) : Message :=
  .freezTimeStart (newMeta ti (codes ("FreezTimeStart")))

def newWorldMatchStart (ti : DateTime) (r : List Str) : Message :=
  .worldMatchStart (newMeta ti (codes ("WorldMatchStart"))) (at_ r 1)

def newWorldRoundStart (ti : DateTime) (_ : List Str) : Message :=
  .worldRoundStart (newMeta ti (codes ("WorldRoundStart")))

def newWorldRoundRestart (ti : DateTime) (r : List Str) : Message :=
  .worldRoundRestart (newMeta ti (codes ("WorldRoundRestart"))) (toInt (at_ r 1))

def newWorldRoundEnd (ti : DateTime) (_ : List Str) : Message :=
  .worldRoundEnd (newMeta ti (codes ("WorldRoundEnd")))

def newWorldGameCommencing (ti : DateTime) (_ : List Str) : Message :=
  .worldGameCommencing (newMeta ti (codes ("WorldGameCommencing")))

def newTeamScored (ti : DateTime) (r : List Str) : Message :=
  .teamScored (newMeta ti (codes ("TeamScored"))) (at_ r 1) (toInt (at_ r 2))
    (toInt (at_ r 3))

def newTeamNotice (ti : DateTime) (r : List Str) : Message :=
  .teamNotice (newMeta ti (codes ("TeamNotice"))) (at_ r 1) (at_ r 2)
    (toInt (at_ r 3)) (toInt (at_ r 4))

/-- Player tuple from four adjacent captures starting at `i`. -/
def playerAt (r : List Str) (i : Nat) : Player :=
  ⟨at_ r i, toInt (at_ r (i + 1)), at_ r (i + 2), at_ r (i + 3)⟩

/-- Player tuple with no side group (connect/enter/ban/switch events). -/
def playerNoSide (r : List Str) (i : Nat) : Player :=
  ⟨at_ r i, toInt (at_ r (i + 1)), at_ r (i + 2), []⟩

/-- Integer position from three adjacent captures starting at `i`. -/
def positionAt (r : List Str) (i : Nat) : Position :=
  ⟨toInt (at_ r i), toInt (at_ r (i + 1)), toInt (at_ r (i + 2))⟩

def newPlayerConnected (ti : DateTime) (r : List Str) : Message :=
  .playerConnected (newMeta ti (codes ("PlayerConnected"))) (playerNoSide r 1) (at_ r 4)

def newPlayerDisconnected (ti : DateTime) (r : List Str) : Message :=
  .playerDisconnected (newMeta ti (codes ("PlayerDisconnected"))) (playerAt r 1) (at_ r 5)

def newPlayerEntered (ti : DateTime) (r : List Str) : Message :=
  .playerEntered (newMeta ti (codes ("PlayerEntered"))) (playerNoSide r 1)

def newPlayerBanned (ti : DateTime) (r : List Str) : Message :=
  .playerBanned (newMeta ti (codes ("PlayerBanned"))) (playerNoSide r 1) (at_ r 4) (at_ r 5)

def newPlayerSwitched (ti : DateTime) (r : List Str) : Message :=
  .playerSwitched (newMeta ti (codes ("PlayerSwitched"))) (playerNoSide r 1) (at_ r 4) (at_ r 5)

def newPlayerSay (ti : DateTime) (r : List Str) : Message :=
  .playerSay (newMeta ti (codes ("PlayerSay"))) (playerAt r 1) (at_ r 6)
    (at_ r 5 == codes ("_team"))

def newPlayerPurchase (ti : DateTime) (r : List Str) : Message :=
  .playerPurchase (newMeta ti (codes ("PlayerPurchase"))) (playerAt r 1) (at_ r 5)

def newPlayerKill (ti : DateTime) (r : List Str) : Message :=
  .playerKill (newMeta ti (codes ("PlayerKill"))) (playerAt r 1) (positionAt r 5)
    (playerAt r 8) (positionAt r 12) (at_ r 15)
    (containsSub (at_ r 17) (codes ("headshot")))
    (containsSub (at_ r 17) (codes ("penetrated")))

def newPlayerKillAssist (ti : DateTime) (r : List Str) : Message :=
  .playerKillAssist (newMeta ti (codes ("PlayerKillAssist"))) (playerAt r 1) (playerAt r 5)

def newPlayerAttack (ti : DateTime) (r : List Str) : Message :=
  .playerAttack (newMeta ti (codes ("PlayerAttack"))) (playerAt r 1) (positionAt r 5)
    (playerAt r 8) (positionAt r 12) (at_ r 15) (toInt (at_ r 16)) (toInt (at_ r 17))
    (toInt (at_ r 18)) (toInt (at_ r 19)) (at_ r 20)

def newPlayerKilledBomb (ti : DateTime) (r : List Str) : Message :=
  .playerKilledBomb (newMeta ti (codes ("PlayerKilledBomb"))) (playerAt r 1) (positionAt r 5)

def newPlayerKilledSuicide (ti : DateTime) (r : List Str) : Message :=
  .playerKilledSuicide (newMeta ti (codes ("PlayerKilledSuicide"))) (playerAt r 1)
    (positionAt r 5) (at_ r 8)

def newPlayerPickedUp (ti : DateTime) (r : List Str) : Message :=
  .playerPickedUp (newMeta ti (codes ("PlayerPickedUp"))) (playerAt r 1) (at_ r 5)

def newPlayerDropped (ti : DateTime) (r : List Str) : Message :=
  .playerDropped (newMeta ti (codes ("PlayerDropped"))) (playerAt r 1) (at_ r 5)

def newPlayerMoneyChange (ti : DateTime) (r : List Str) : Message :=
  .playerMoneyChange (newMeta ti (codes ("PlayerMoneyChange"))) (playerAt r 1)
    ⟨toInt (at_ r 5), toInt (at_ r 6), toInt (at_ r 7)⟩ (at_ r 9)

def newPlayerBombGot (ti : DateTime) (r : List Str) : Message :=
  .playerBombGot (newMeta ti (codes ("PlayerBombGot"))) (playerAt r 1)

def newPlayerBombPlanted (ti : DateTime) (r : List Str) : Message :=
  .playerBombPlanted (newMeta ti (codes ("PlayerBombPlanted"))) (playerAt r 1)

def newPlayerBombDropped (ti : DateTime) (r : List Str) : Message :=
  .playerBombDropped (newMeta ti (codes ("PlayerBombDropped"))) (playerAt r 1)

def newPlayerBombBeginDefuse (ti : DateTime) (r : List Str) : Message :=
  .playerBombBeginDefuse (newMeta ti (codes ("PlayerBombBeginDefuse"))) (playerAt r 1)
    (!(at_ r 5 == codes ("out")))

def newPlayerBombDefused (ti : DateTime) (r : List Str) : Message :=
  .playerBombDefused (newMeta ti (codes ("PlayerBombDefused"))) (playerAt r 1)

def newPlayerThrew (ti : DateTime) (r : List Str) : Message :=
  .playerThrew (newMeta ti (codes ("PlayerThrew"))) (playerAt r 1) (positionAt r 6)
    (toInt (at_ r 10)) (at_ r 5)

def newPlayerBlinded (ti : DateTime) (r : List Str) : Message :=
  .playerBlinded (newMeta ti (codes ("PlayerBlinded"))) (playerAt r 6) (playerAt r 1)
    (toFloat32 (at_ r 5)) (toInt (at_ r 10))

def newProjectileSpawned (ti : DateTime) (r : List Str) : Message :=
  .projectileSpawned (newMeta ti (codes ("ProjectileSpawned")))
    ⟨toFloat32 (at_ r 1), toFloat32 (at_ r 2), toFloat32 (at_ r 3)⟩
    ⟨toFloat32 (at_ r 4), toFloat32 (at_ r 5), toFloat32 (at_ r 6)⟩

def newGameOver (ti : DateTime) (r : List Str) : Message :=
  .gameOver (newMeta ti (codes ("GameOver"))) (at_ r 1) (at_ r 2) (at_ r 3)
    (toInt (at_ r 4)) (toInt (at_ r 5)) (toInt (at_ r 6))

def newUnknown (ti : DateTime) (r : List Str) : Message :=
  .unknown (newMeta ti (codes ("Unknown"))) (at_ r 1)

/-! ## The pattern catalog and the dispatcher -/

/-- One name per catalog entry; the Go catalog is a map from compiled
pattern to builder, iterated in unspecified order, so the dispatcher is
modelled over an explicit entry order below. -/
inductive EvKind where
  | serverMessage | freezTimeStart | worldMatchStart | worldRoundStart
  | worldRoundRestart | worldRoundEnd | worldGameCommencing | teamScored
  | teamNotice | playerConnected | playerDisconnected | playerEntered
  | playerBanned | playerSwitched | playerSay | playerPurchase | playerKill
  | playerKillAssist | playerAttack | playerKilledBomb | playerKilledSuicide
  | playerPickedUp | playerDropped | playerMoneyChange | playerBombGot
  | playerBombPlanted | playerBombDropped | playerBombBeginDefuse
  | playerBombDefused | playerThrew | playerBlinded | projectileSpawned
  | gameOver
deriving DecidableEq, Repr

/-- The pattern string of a catalog entry. -/
def patOf : EvKind → Str
  | .serverMessage => ServerMessagePattern
  | .freezTimeStart => FreezTimeStartPattern
  | .worldMatchStart => WorldMatchStartPattern
  | .worldRoundStart => WorldRoundStartPattern
  | .worldRoundRestart => WorldRoundRestartPattern
  | .worldRoundEnd => WorldRoundEndPattern
  | .worldGameCommencing => WorldGameCommencingPattern
  | .teamScored => TeamScoredPattern
  | .teamNotice => TeamNoticePattern
  | .playerConnected => PlayerConnectedPattern
  | .playerDisconnected => PlayerDisconnectedPattern
  | .playerEntered => PlayerEnteredPattern
  | .playerBanned => PlayerBannedPattern
  | .playerSwitched => PlayerSwitchedPattern
  | .playerSay => PlayerSayPattern
  | .playerPurchase => PlayerPurchasePattern
  | .playerKill => PlayerKillPattern
  | .playerKillAssist => PlayerKillAssistPattern
  | .playerAttack => PlayerAttackPattern
  | .playerKilledBomb => PlayerKilledBombPattern
  | .playerKilledSuicide => PlayerKilledSuicidePattern
  | .playerPickedUp => PlayerPickedUpPattern
  | .playerDropped => PlayerDroppedPattern
  | .playerMoneyChange => PlayerMoneyChangePattern
  | .playerBombGot => PlayerBombGotPattern
  | .playerBombPlanted => PlayerBombPlantedPattern
  | .playerBombDropped => PlayerBombDroppedPattern
  | .playerBombBeginDefuse => PlayerBombBeginDefusePattern
  | .playerBombDefused => PlayerBombDefusedPattern
  | .playerThrew => PlayerThrewPattern
  | .playerBlinded => PlayerBlindedPattern
  | .projectileSpawned => ProjectileSpawnedPattern
  | .gameOver => GameOverPattern

/-- The builder bound to a catalog entry. -/
def buildOf : EvKind → DateTime → List Str → Message
  | .serverMessage => newServerMessage
  | .freezTimeStart => newFreezTimeStart
  | .worldMatchStart => newWorldMatchStart
  | .worldRoundStart => newWorldRoundStart
  | .worldRoundRestart => newWorldRoundRestart
  | .worldRoundEnd => newWorldRoundEnd
  | .worldGameCommencing => newWorldGameCommencing
  | .teamScored => newTeamScored
  | .teamNotice => newTeamNotice
  | .playerConnected => newPlayerConnected
  | .playerDisconnected => newPlayerDisconnected
  | .playerEntered => newPlayerEntered
  | .playerBanned => newPlayerBanned
  | .playerSwitched => newPlayerSwitched
  | .playerSay => newPlayerSay
  | .playerPurchase => newPlayerPurchase
  | .playerKill => newPlayerKill
  | .playerKillAssist => newPlayerKillAssist
  | .playerAttack => newPlayerAttack
  | .playerKilledBomb => newPlayerKilledBomb
  | .playerKilledSuicide => newPlayerKilledSuicide
  | .playerPickedUp => newPlayerPickedUp
  | .playerDropped => newPlayerDropped
  | .playerMoneyChange => newPlayerMoneyChange
  | .playerBombGot => newPlayerBombGot
  | .playerBombPlanted => newPlayerBombPlanted
  | .playerBombDropped => newPlayerBombDropped
  | .playerBombBeginDefuse => newPlayerBombBeginDefuse
  | .playerBombDefused => newPlayerBombDefused
  | .playerThrew => newPlayerThrew
  | .playerBlinded => newPlayerBlinded
  | .projectileSpawned => newProjectileSpawned
  | .gameOver => newGameOver

/-- The catalog entries, in the textual order of the Go map literal.
Go iterates the map in unspecified order; `ParseWith` therefore takes
the order as a parameter and `Parse` uses this one. -/
def catalog : List EvKind :=
  [.serverMessage, .freezTimeStart, .worldMatchStart, .worldRoundStart,
   .worldRoundRestart, .worldRoundEnd, .worldGameCommencing, .teamScored,
   .teamNotice, .playerConnected, .playerDisconnected, .playerEntered,
   .playerBanned, .playerSwitched, .playerSay, .playerPurchase, .playerKill,
   .playerKillAssist, .playerAttack, .playerKilledBomb, .playerKilledSuicide,
   .playerPickedUp, .playerDropped, .playerMoneyChange, .playerBombGot,
   .playerBombPlanted, .playerBombDropped, .playerBombBeginDefuse,
   .playerBombDefused, .playerThrew, .playerBlinded, .projectileSpawned,
   .gameOver]

/-- Go's error values from `Parse`: the package-level `ErrorNoMatch`,
or a propagated `*time.ParseError`. -/
inductive GoErr where
  | noMatch
  | timeErr (e : TimeError)
deriving DecidableEq, Repr

/-- Outcome of `Parse`: the Go pair `(Message, error)` with `nil`
modelled as `none`, or fuel exhaustion of the regex engine (out of
model; no theorem concerns such a line). -/
inductive ParseOut where
  | res (m : Option Message) (e : Option GoErr)
  | fuelExhausted
deriving DecidableEq, Repr

/-- First catalog entry, in the given order, whose pattern matches the
body, together with its submatch slice. -/
def firstHit (order : List EvKind) (body : Str) : MRes (EvKind × List Str) :=
  match order with
  | [] => .miss
  | k :: rest =>
    match findSub (patOf k) body with
    | .ok r => .ok (k, r)
    | .miss => firstHit rest body
    | .fuelOut => .fuelOut

/-- Go's `Parse`, with the catalog iteration order made explicit: match
the line against the log-line pattern (else `ErrorNoMatch`), parse the
timestamp (else propagate the time error), then return the first
matching entry's message, or an `Unknown` message wrapping the body
when no entry matches.  `newUnknown` receives `result[1:]` exactly as
in Go. -/
def ParseWith (order : List EvKind) (line : Str) : ParseOut :=
  match findSub logLinePattern line with
  | .fuelOut => .fuelExhausted
  | .miss => .res none (some .noMatch)
  | .ok result =>
    match parseGoTime (at_ result 1) with
    | .error e => .res none (some (.timeErr e))
    | .ok ti =>
      match firstHit order (at_ result 2) with
      | .ok (k, r) => .res (some (buildOf k ti r)) none
      | .miss => .res (some (newUnknown ti (result.drop 1))) none
      | .fuelOut => .fuelExhausted

/-- Go's `Parse` over the catalog in source order. -/
def Parse (line : Str) : ParseOut := ParseWith catalog line

/-- A catalog entry definitively matches a body. -/
def isHit (k : EvKind) (body : Str) : Bool :=
  match findSub (patOf k) body with
  | .ok _ => true
  | _ => false

/-- The message body of a line, as the dispatcher extracts it (empty
when the log-line pattern finds no match). -/
def bodyOf (line : Str) : Str :=
  match findSub logLinePattern line with
  | .ok r => at_ r 2
  | _ => []

end Csgolog

namespace Csgolog

/-! ## Shared lemmas about the dispatcher -/

/-- Go's `r[1:]` then `[1]` is `r[2]`. -/
theorem at_drop_one (r : List Str) : at_ (r.drop 1) 1 = at_ r 2 := by
  cases r <;> simp [at_]

/-- When every catalog entry definitively fails on the body, the scan
reports a definitive failure. -/
theorem firstHit_miss_of_all (o : List EvKind) (body : Str)
    (h : ∀ k ∈ o, findSub (patOf k) body = .miss) :
    firstHit o body = .miss := by
  induction o with
  | nil => rfl
  | cons k rest ih =>
    have hk := h k (by simp)
    simp only [firstHit, hk]
    exact ih fun k' hk' => h k' (by simp [hk'])

/-- When exactly one entry matches and the rest definitively fail, the
scan returns that entry's submatches, whatever the order. -/
theorem firstHit_ok_of_unique (o : List EvKind) (body : Str) (k0 : EvKind)
    (r0 : List Str) (hk : findSub (patOf k0) body = .ok r0) (hmem : k0 ∈ o)
    (hother : ∀ k ∈ o, k ≠ k0 → findSub (patOf k) body = .miss) :
    firstHit o body = .ok (k0, r0) := by
  induction o with
  | nil => cases hmem
  | cons k rest ih =>
    by_cases hEq : k = k0
    · subst hEq
      simp only [firstHit, hk]
    · have hkfail := hother k (by simp) hEq
      simp only [firstHit, hkfail]
      refine ih ?_ fun k' hk' h' => hother k' (by simp [hk']) h'
      rcases List.mem_cons.mp hmem with h | h
      · exact absurd h.symm hEq
      · exact h

/-! ## C1: valid timestamp, unmatched body, Unknown fallback -/

/-- C1.  For every line whose timestamp prefix matches, whose captured
timestamp parses, and whose body is matched by no catalog pattern,
`Parse` returns an `Unknown` message whose kind tag is `"Unknown"` and
whose raw field is the body verbatim, with a nil error. -/
theorem parse_unmatched_body_gives_unknown (line : Str) (r : List Str)
    (t : DateTime) (h1 : findSub logLinePattern line = .ok r)
    (h2 : parseGoTime (at_ r 1) = .ok t)
    (h3 : ∀ k ∈ catalog, findSub (patOf k) (at_ r 2) = .miss) :
    Parse line = .res (some (.unknown ⟨t, codes ("Unknown")⟩ (at_ r 2))) none := by
  simp only [Parse, ParseWith, h1, h2, firstHit_miss_of_all catalog (at_ r 2) h3,
    newUnknown, at_drop_one, newMeta]

/-- C1 witness: a line whose body `foo bar baz` no pattern matches. -/
theorem parse_unmatched_body_gives_unknown_witness :
    findSub logLinePattern (codes ("L 11/05/2018 - 15:44:36: foo bar baz"))
        = .ok [codes ("L 11/05/2018 - 15:44:36: foo bar baz"),
               codes ("11/05/2018 - 15:44:36"), codes ("foo bar baz")] ∧
      parseGoTime (codes ("11/05/2018 - 15:44:36"))
        = .ok ⟨2018, 11, 5, 15, 44, 36, codes ("UTC")⟩ ∧
      Parse (codes ("L 11/05/2018 - 15:44:36: foo bar baz"))
        = .res (some (.unknown ⟨⟨2018, 11, 5, 15, 44, 36, codes ("UTC")⟩,
            codes ("Unknown")⟩ (codes ("foo bar baz")))) none :=
  ⟨by decide, by decide,
    parse_unmatched_body_gives_unknown
      (codes ("L 11/05/2018 - 15:44:36: foo bar baz"))
      [codes ("L 11/05/2018 - 15:44:36: foo bar baz"),
       codes ("11/05/2018 - 15:44:36"), codes ("foo bar baz")]
      ⟨2018, 11, 5, 15, 44, 36, codes ("UTC")⟩
      (by decide) (by decide) (by decide)⟩

/-! ## C2: no timestamp prefix, ErrorNoMatch -/

/-- C2.  For every line the top-level log-line pattern does not match,
`Parse` fails with `ErrorNoMatch` and produces no message. -/
theorem parse_no_prefix_fails_noMatch (line : Str)
    (h : findSub logLinePattern line = .miss) :
    Parse line = .res none (some .noMatch) := by
  simp only [Parse, ParseWith, h]

/-- C2 witness: the line `foo` has no timestamp prefix. -/
theorem parse_no_prefix_fails_noMatch_witness :
    findSub logLinePattern (codes ("foo")) = .miss ∧
      Parse (codes ("foo")) = .res none (some .noMatch) :=
  ⟨by decide, parse_no_prefix_fails_noMatch (codes ("foo")) (by decide)⟩

/-! ## C3: shape matches, date out of range, distinct error -/

/-- C3.  For every line whose prefix shape matches but whose captured
timestamp fails Go's date parsing, `Parse` propagates the time-parse
error, which is distinct from `ErrorNoMatch`, and produces no
message. -/
theorem parse_bad_date_propagates_time_error (line : Str) (r : List Str)
    (e : TimeError) (h1 : findSub logLinePattern line = .ok r)
    (h2 : parseGoTime (at_ r 1) = .error e) :
    Parse line = .res none (some (.timeErr e)) ∧ GoErr.timeErr e ≠ .noMatch := by
  refine ⟨?_, by simp⟩
  simp only [Parse, ParseWith, h1, h2]

/-- C3 witness: day 50 of November, the example of the spec. -/
theorem parse_bad_date_propagates_time_error_witness :
    findSub logLinePattern (codes ("L 11/50/2018 - 15:44:36: foo"))
        = .ok [codes ("L 11/50/2018 - 15:44:36: foo"),
               codes ("11/50/2018 - 15:44:36"), codes ("foo")] ∧
      parseGoTime (codes ("11/50/2018 - 15:44:36"))
        = .error (.outOfRange (codes ("day"))) ∧
      Parse (codes ("L 11/50/2018 - 15:44:36: foo"))
          = .res none (some (.timeErr (.outOfRange (codes ("day"))))) ∧
        GoErr.timeErr (.outOfRange (codes ("day"))) ≠ .noMatch :=
  ⟨by decide, by decide,
    parse_bad_date_propagates_time_error
      (codes ("L 11/50/2018 - 15:44:36: foo"))
      [codes ("L 11/50/2018 - 15:44:36: foo"),
       codes ("11/50/2018 - 15:44:36"), codes ("foo")]
      (.outOfRange (codes ("day"))) (by decide) (by decide)⟩

/-! ## C4: the purchase example, kind, fields, UTC -/

/-- C4.  The line `L 11/05/2018 - 15:44:36: "Player<12><STEAM_1:1:0101011><CT>"
purchased "m4a1"` is matched by exactly one catalog entry
(`PlayerPurchase`), and `Parse` returns the `PlayerPurchase` message
with the UTC timestamp 2018-11-05T15:44:36, the player
`{Player, 12, STEAM_1:1:0101011, CT}` and the item `m4a1`, with a nil
error. -/
theorem parse_purchase_line_example :
    catalog.filter
        (fun k => isHit k (codes ("\"Player<12><STEAM_1:1:0101011><CT>\" purchased \"m4a1\"")))
        = [.playerPurchase] ∧
      Parse (codes ("L 11/05/2018 - 15:44:36: \"Player<12><STEAM_1:1:0101011><CT>\" purchased \"m4a1\""))
        = .res (some (.playerPurchase
            ⟨⟨2018, 11, 5, 15, 44, 36, codes ("UTC")⟩, codes ("PlayerPurchase")⟩
            ⟨codes ("Player"), 12, codes ("STEAM_1:1:0101011"), codes ("CT")⟩
            (codes ("m4a1")))) none := by
  constructor
  · decide
  · decide

/-! ## C5: mutual exclusivity of the catalog -/

/-- C5.  The catalog is not mutually exclusive: the well-formed body
`"P<1><STEAM_1:1:0><CT>" say "Starting Freeze period"` (a chat message
quoting another event's text) is matched by two distinct catalog
entries, `PlayerSay` and `FreezTimeStart`, because every pattern is
searched anywhere in the body and `FreezTimeStartPattern` is a bare
substring. -/
theorem two_catalog_entries_match_one_body :
    EvKind.playerSay ≠ EvKind.freezTimeStart ∧
      EvKind.playerSay ∈ catalog ∧ EvKind.freezTimeStart ∈ catalog ∧
      isHit .playerSay
          (codes ("\"P<1><STEAM_1:1:0><CT>\" say \"Starting Freeze period\"")) = true ∧
      isHit .freezTimeStart
          (codes ("\"P<1><STEAM_1:1:0><CT>\" say \"Starting Freeze period\"")) = true := by
  refine ⟨by decide, by decide, by decide, by decide, by decide⟩

/-! ## C6: determinism of Parse -/

/-- Catalog order with the `PlayerSay` entry moved to the front: a
permutation of the catalog, hence one of the iteration orders Go's
unordered map range may produce. -/
def sayFirstOrder : List EvKind := .playerSay :: catalog.erase .playerSay

/-- C6 counterexample.  Two iteration orders of the same catalog give
different results on the line whose body both `PlayerSay` and
`FreezTimeStart` match: the dispatcher's output depends on the catalog
iteration order, which Go's map range does not fix. -/
theorem parse_depends_on_catalog_order :
    List.Perm catalog sayFirstOrder ∧
      ParseWith catalog
          (codes ("L 11/05/2018 - 15:44:36: \"P<1><STEAM_1:1:0><CT>\" say \"Starting Freeze period\""))
        ≠ ParseWith sayFirstOrder
          (codes ("L 11/05/2018 - 15:44:36: \"P<1><STEAM_1:1:0><CT>\" say \"Starting Freeze period\"")) :=
  ⟨List.perm_cons_erase (by decide), by decide⟩

/-- A list with two distinct members has length at least two. -/
theorem two_mem_le_length {α : Type} (l : List α) (a b : α) (ha : a ∈ l)
    (hb : b ∈ l) (hne : a ≠ b) : 2 ≤ l.length := by
  induction l with
  | nil => cases ha
  | cons x t ih =>
    rcases List.mem_cons.mp ha with rfl | ha'
    · rcases List.mem_cons.mp hb with rfl | hb'
      · exact absurd rfl hne
      · have := List.length_pos_of_mem hb'
        simp only [List.length_cons]
        omega
    · have := List.length_pos_of_mem ha'
      simp only [List.length_cons]
      omega

/-- The catalog scan is order-independent on bodies that at most one
entry matches, provided every entry answers definitively. -/
theorem firstHit_perm (body : Str) (o1 o2 : List EvKind) (hp : o1.Perm o2)
    (hnf : ∀ k ∈ o1, findSub (patOf k) body ≠ .fuelOut)
    (hu : (o1.filter fun k => isHit k body).length ≤ 1) :
    firstHit o1 body = firstHit o2 body := by
  by_cases hex : ∃ k ∈ o1, isHit k body
  · obtain ⟨k0, hk0mem, hk0⟩ := hex
    obtain ⟨r0, hr0⟩ : ∃ r0, findSub (patOf k0) body = .ok r0 := by
      unfold isHit at hk0
      cases hfs : findSub (patOf k0) body with
      | ok r => exact ⟨r, rfl⟩
      | miss => rw [hfs] at hk0; cases hk0
      | fuelOut => rw [hfs] at hk0; cases hk0
    have hother1 : ∀ k ∈ o1, k ≠ k0 → findSub (patOf k) body = .miss := by
      intro k hk hne
      cases hfs : findSub (patOf k) body with
      | miss => rfl
      | fuelOut => exact absurd hfs (hnf k hk)
      | ok r =>
        have hhit : isHit k body = true := by unfold isHit; rw [hfs]
        have hhit0 : isHit k0 body = true := hk0
        have hmf : k ∈ o1.filter fun k => isHit k body :=
          List.mem_filter.mpr ⟨hk, hhit⟩
        have hmf0 : k0 ∈ o1.filter fun k => isHit k body :=
          List.mem_filter.mpr ⟨hk0mem, hhit0⟩
        have := two_mem_le_length _ k k0 hmf hmf0 hne
        omega
    rw [firstHit_ok_of_unique o1 body k0 r0 hr0 hk0mem hother1,
      firstHit_ok_of_unique o2 body k0 r0 hr0 (hp.mem_iff.mp hk0mem)
        fun k hk hne => hother1 k (hp.mem_iff.mpr hk) hne]
  · push_neg at hex
    have h1 : ∀ k ∈ o1, findSub (patOf k) body = .miss := by
      intro k hk
      cases hfs : findSub (patOf k) body with
      | miss => rfl
      | fuelOut => exact absurd hfs (hnf k hk)
      | ok r =>
        have : isHit k body = true := by unfold isHit; rw [hfs]
        exact absurd this (by simpa using hex k hk)
    rw [firstHit_miss_of_all o1 body h1,
      firstHit_miss_of_all o2 body fun k hk => h1 k (hp.mem_iff.mpr hk)]

/-- C6 amended.  `ParseWith` is a pure function of the line and the
catalog iteration order, and on every line whose body is definitively
matched by at most one catalog entry the iteration order is irrelevant:
any two orders of the same entries give the same message and error. -/
theorem parse_order_irrelevant_of_unique_match (line : Str)
    (o1 o2 : List EvKind) (hp : o1.Perm o2)
    (hnf : ∀ k ∈ o1, findSub (patOf k) (bodyOf line) ≠ .fuelOut)
    (hu : (o1.filter fun k => isHit k (bodyOf line)).length ≤ 1) :
    ParseWith o1 line = ParseWith o2 line := by
  cases h : findSub logLinePattern line with
  | fuelOut => simp only [ParseWith, h]
  | miss => simp only [ParseWith, h]
  | ok r =>
    have hbody : bodyOf line = at_ r 2 := by simp only [bodyOf, h]
    rw [hbody] at hnf hu
    cases hpt : parseGoTime (at_ r 1) with
    | error e => simp only [ParseWith, h, hpt]
    | ok t =>
      simp only [ParseWith, h, hpt, firstHit_perm (at_ r 2) o1 o2 hp hnf hu]

/-- C6 witness: on a line with an unmatched body (no entry hits), the
catalog order and the say-first order agree. -/
theorem parse_order_irrelevant_witness :
    List.Perm catalog sayFirstOrder ∧
      (∀ k ∈ catalog,
        findSub (patOf k) (bodyOf (codes ("L 11/05/2018 - 15:44:36: foo bar baz"))) ≠ .fuelOut) ∧
      (catalog.filter
        fun k => isHit k (bodyOf (codes ("L 11/05/2018 - 15:44:36: foo bar baz")))).length ≤ 1 ∧
      ParseWith catalog (codes ("L 11/05/2018 - 15:44:36: foo bar baz"))
        = ParseWith sayFirstOrder (codes ("L 11/05/2018 - 15:44:36: foo bar baz")) :=
  ⟨List.perm_cons_erase (by decide), by decide, by decide,
    parse_order_irrelevant_of_unique_match
      (codes ("L 11/05/2018 - 15:44:36: foo bar baz")) catalog sayFirstOrder
      (List.perm_cons_erase (by decide)) (by decide) (by decide)⟩

/-! ## C7: coercion helpers -/

/-- C7 counterexample.  `2^63` is a syntactically valid base-10 signed
integer (`atoiNum` reads it), but it overflows the 64-bit `int` of
`strconv.Atoi`, so `toInt` returns `0`, not its value. -/
theorem toInt_overflow_counterexample :
    atoiNum (codes ("9223372036854775808")) = some ((9223372036854775808 : Int)) ∧
      toInt (codes ("9223372036854775808")) = 0 ∧
      (9223372036854775808 : Int) ≠ 0 := by
  refine ⟨by decide, by decide, by decide⟩

/-- C7 amended.  `toInt` returns the value of a valid base-10 signed
integer string when that value fits the signed 64-bit range, and `0`
for every other string (syntactically invalid or out of range);
`toFloat32` returns the `float32` zero on any input that is not a
valid Go floating-point literal.  Both functions are total: no error
is ever surfaced. -/
theorem toInt_toFloat32_zero_fallback (s : Str) :
    (∀ v : Int, atoiNum s = some v → -(2 ^ 63) ≤ v → v ≤ 2 ^ 63 - 1 → toInt s = v) ∧
      (∀ v : Int, atoiNum s = some v → (v < -(2 ^ 63) ∨ 2 ^ 63 - 1 < v) → toInt s = 0) ∧
      (atoiNum s = none → toInt s = 0) ∧
      (parseF32 s = none → toFloat32 s = .zero) := by
  refine ⟨?_, ?_, ?_, ?_⟩
  · intro v hv h1 h2
    simp only [toInt, atoiOk, hv]
    rw [if_pos ⟨h1, h2⟩]
  · intro v hv h12
    simp only [toInt, atoiOk, hv]
    have hneg : ¬(-(2 ^ 63) ≤ v ∧ v ≤ 2 ^ 63 - 1) := by
      rintro ⟨ha, hb⟩
      rcases h12 with h | h <;> omega
    rw [if_neg hneg]
  · intro hv
    simp only [toInt, atoiOk, hv]
  · intro hv
    simp only [toFloat32, hv]

/-- C7 witness: an in-range integer and an unparsable float input. -/
theorem toInt_toFloat32_zero_fallback_witness :
    toInt (codes ("-42")) = -42 ∧ toFloat32 (codes ("hello")) = .zero :=
  ⟨(toInt_toFloat32_zero_fallback (codes ("-42"))).1 (-42) (by decide) (by decide)
      (by decide),
    (toInt_toFloat32_zero_fallback (codes ("hello"))).2.2.2 (by decide)⟩

/-! ## C8: kill-flag independence -/

/-- C8.  A kill line with trailing `(headshot penetrated)` parses to a
`PlayerKill` message with both flags true, with `(headshot)` to
headshot only, and with no trailing parenthetical to both flags false:
the two booleans are independent substring-presence tests on the
optional trailing capture. -/
theorem parse_kill_flag_combinations :
    Parse (codes ("L 11/05/2018 - 15:44:36: \"Player<12><STEAM_1:1:0101011><TERRORIST>\" [-225 -1829 -168] killed \"Zim<20><BOT><CT>\" [-476 -1709 -110] with \"glock\" (headshot penetrated)"))
        = .res (some (.playerKill
            ⟨⟨2018, 11, 5, 15, 44, 36, codes ("UTC")⟩, codes ("PlayerKill")⟩
            ⟨codes ("Player"), 12, codes ("STEAM_1:1:0101011"), codes ("TERRORIST")⟩
            ⟨-225, -1829, -168⟩
            ⟨codes ("Zim"), 20, codes ("BOT"), codes ("CT")⟩
            ⟨-476, -1709, -110⟩ (codes ("glock")) true true)) none ∧
      Parse (codes ("L 11/05/2018 - 15:44:36: \"Player<12><STEAM_1:1:0101011><TERRORIST>\" [-225 -1829 -168] killed \"Zim<20><BOT><CT>\" [-476 -1709 -110] with \"glock\" (headshot)"))
        = .res (some (.playerKill
            ⟨⟨2018, 11, 5, 15, 44, 36, codes ("UTC")⟩, codes ("PlayerKill")⟩
            ⟨codes ("Player"), 12, codes ("STEAM_1:1:0101011"), codes ("TERRORIST")⟩
            ⟨-225, -1829, -168⟩
            ⟨codes ("Zim"), 20, codes ("BOT"), codes ("CT")⟩
            ⟨-476, -1709, -110⟩ (codes ("glock")) true false)) none ∧
      Parse (codes ("L 11/05/2018 - 15:44:36: \"Player<12><STEAM_1:1:0101011><TERRORIST>\" [-225 -1829 -168] killed \"Zim<20><BOT><CT>\" [-476 -1709 -110] with \"glock\""))
        = .res (some (.playerKill
            ⟨⟨2018, 11, 5, 15, 44, 36, codes ("UTC")⟩, codes ("PlayerKill")⟩
            ⟨codes ("Player"), 12, codes ("STEAM_1:1:0101011"), codes ("TERRORIST")⟩
            ⟨-225, -1829, -168⟩
            ⟨codes ("Zim"), 20, codes ("BOT"), codes ("CT")⟩
            ⟨-476, -1709, -110⟩ (codes ("glock")) false false)) none := by
  refine ⟨by decide, by decide, by decide⟩

/-! ## C9: money-change extraction -/

/-- C9.  A money-change body `money change 2050-1000 = $1050 (tracked)
(purchase: item_assaultsuit)` yields the equation `a = 2050,
b = -1000, result = 1050` with purchase `item_assaultsuit` (the minus
sign is captured into `b`), and `money change 7700+300 = $8000
(tracked)` yields `a = 7700, b = 300, result = 8000` with an empty
purchase (the `+` is consumed by the pattern and the absent purchase
annotation reads as the empty string). -/
theorem parse_money_change_examples :
    Parse (codes ("L 11/05/2018 - 15:44:36: \"Player<2><STEAM_1:1:0101011><TERRORIST>\" money change 2050-1000 = $1050 (tracked) (purchase: item_assaultsuit)"))
        = .res (some (.playerMoneyChange
            ⟨⟨2018, 11, 5, 15, 44, 36, codes ("UTC")⟩, codes ("PlayerMoneyChange")⟩
            ⟨codes ("Player"), 2, codes ("STEAM_1:1:0101011"), codes ("TERRORIST")⟩
            ⟨2050, -1000, 1050⟩ (codes ("item_assaultsuit")))) none ∧
      Parse (codes ("L 11/05/2018 - 15:44:36: \"Player<2><STEAM_1:1:0101011><TERRORIST>\" money change 7700+300 = $8000 (tracked)"))
        = .res (some (.playerMoneyChange
            ⟨⟨2018, 11, 5, 15, 44, 36, codes ("UTC")⟩, codes ("PlayerMoneyChange")⟩
            ⟨codes ("Player"), 2, codes ("STEAM_1:1:0101011"), codes ("TERRORIST")⟩
            ⟨7700, 300, 8000⟩ [])) none := by
  refine ⟨by decide, by decide⟩

/-! ## C10: exactly one of message and error -/

/-- C10.  Whatever the catalog order, whenever the dispatcher returns a
Go pair `(Message, error)`, a non-nil error comes with a nil message
and a nil error comes with a non-nil message. -/
theorem parse_message_xor_error (order : List EvKind) (line : Str)
    (m : Option Message) (e : Option GoErr)
    (h : ParseWith order line = .res m e) :
    (e.isSome = true → m = none) ∧ (e = none → m.isSome = true) := by
  unfold ParseWith at h
  cases hTop : findSub logLinePattern line with
  | fuelOut =>
    simp only [hTop] at h
    exact ParseOut.noConfusion h
  | miss =>
    simp only [hTop] at h
    injection h with h1 h2
    subst h1; subst h2
    simp
  | ok r =>
    simp only [hTop] at h
    cases hpt : parseGoTime (at_ r 1) with
    | error e' =>
      simp only [hpt] at h
      injection h with h1 h2
      subst h1; subst h2
      simp
    | ok t =>
      simp only [hpt] at h
      cases hfh : firstHit order (at_ r 2) with
      | fuelOut =>
        simp only [hfh] at h
        exact ParseOut.noConfusion h
      | miss =>
        simp only [hfh] at h
        injection h with h1 h2
        subst h1; subst h2
        simp
      | ok kr =>
        simp only [hfh] at h
        injection h with h1 h2
        subst h1; subst h2
        simp

/-- C10 witness: an error outcome (no timestamp prefix). -/
theorem parse_message_xor_error_witness :
    ParseWith catalog (codes ("foo")) = .res none (some .noMatch) ∧
      ((some GoErr.noMatch).isSome = true → (none : Option Message) = none) ∧
      ((some GoErr.noMatch) = none → (none : Option Message).isSome = true) :=
  ⟨by decide,
    parse_message_xor_error catalog (codes ("foo")) none (some .noMatch) (by decide)⟩

end Csgolog
